import Mathlib

/-!
Verification development for the heartpi risk-scoring and synthetic-signal
engine. The definitions below are shallow embeddings of the C++ sources:
FamilyHealth.h / FamilyHealth.cpp (data model), Calculations.cpp
(assessHeartHealth), and RandomNumberGenerator.cpp / .h (uniform sampler).
C++ int fields are modelled as unbounded integers (no arithmetic in the
program approaches the int range), doubles as rationals, and the
std::vector fields as Lean lists. The random sampler is passed in as an
explicit function argument, since each C++ call site constructs a freshly
seeded generator for a given bounds pair.
-/

/-- Mirror of the FamilyHealth class of FamilyHealth.h: age group, gender
(false = female, true = male), sleep-hours category, exercise frequency,
diet type, smoker flag, the list of disease names, and the family-disease
history vector. -/
structure FamilyHealth where
  ageGroup : ℤ
  gender : Bool
  sleepHours : ℤ
  exerciseFrequency : ℤ
  dietType : ℤ
  isSmoker : Bool
  familyDiseases : List String
  familyDiseasesHistory : List Bool
  deriving Repr, DecidableEq

/-- Mirror of FamilyHealth::getAgeGroup. -/
def FamilyHealth.getAgeGroup (f : FamilyHealth) : ℤ := f.ageGroup

/-- Mirror of FamilyHealth::getGender (false = female, true = male). -/
def FamilyHealth.getGender (f : FamilyHealth) : Bool := f.gender

/-- Mirror of FamilyHealth::getSleepHours. -/
def FamilyHealth.getSleepHours (f : FamilyHealth) : ℤ := f.sleepHours

/-- Mirror of FamilyHealth::getExerciseFrequency. -/
def FamilyHealth.getExerciseFrequency (f : FamilyHealth) : ℤ := f.exerciseFrequency

/-- Mirror of FamilyHealth::getDietType. -/
def FamilyHealth.getDietType (f : FamilyHealth) : ℤ := f.dietType

/-- Mirror of FamilyHealth::getIsSmoker. -/
def FamilyHealth.getIsSmoker (f : FamilyHealth) : Bool := f.isSmoker

/-- Mirror of FamilyHealth::getFamilyHistoryCount: the size of the
familyDiseasesHistory vector, as a C++ int. -/
def FamilyHealth.getFamilyHistoryCount (f : FamilyHealth) : ℤ :=
  (f.familyDiseasesHistory.length : ℤ)

/-- Mirror of FamilyHealth::hasFamilyDisease: a negative index or an
index at or beyond the history count returns false; otherwise the vector
entry is read. -/
def FamilyHealth.hasFamilyDisease (f : FamilyHealth) (diseaseIndex : ℤ) : Bool :=
  if diseaseIndex < 0 ∨ f.getFamilyHistoryCount ≤ diseaseIndex then false
  else f.familyDiseasesHistory.getD diseaseIndex.toNat false

/-- Mirror of FamilyHealth::setFamilyDiseaseHistory (FamilyHealth.h,
lines 159 to 163): the entry is written only when the index is in
range, and otherwise nothing is modified. -/
def FamilyHealth.setFamilyDiseaseHistory (f : FamilyHealth) (index : ℤ) (value : Bool) :
    FamilyHealth :=
  if 0 ≤ index ∧ index < (f.familyDiseasesHistory.length : ℤ) then
    { f with familyDiseasesHistory := f.familyDiseasesHistory.set index.toNat value }
  else f

/-- Mirror of the FamilyHealth default constructor (FamilyHealth.cpp):
it fixes the four disease names and a history vector of four false
entries. The scalar questionnaire fields are left indeterminate by the
C++ constructor, so they are taken here as parameters. -/
def mkFamilyHealth (ageGroup : ℤ) (gender : Bool) (sleepHours : ℤ)
    (exerciseFrequency : ℤ) (dietType : ℤ) (isSmoker : Bool) : FamilyHealth :=
  { ageGroup := ageGroup
    gender := gender
    sleepHours := sleepHours
    exerciseFrequency := exerciseFrequency
    dietType := dietType
    isSmoker := isSmoker
    familyDiseases := ["Heart attack or coronary artery disease",
                       "Diabetes (Type 2)",
                       "High cholesterol",
                       "High blood pressure"]
    familyDiseasesHistory := List.replicate 4 false }

/-- Age factor of assessHeartHealth (Calculations.cpp, lines 49 to 54). -/
def ageContribution (ageGroup : ℤ) : ℤ :=
  if ageGroup = 1 ∨ ageGroup = 2 then 1
  else if ageGroup = 3 ∨ ageGroup = 4 then 2
  else 3

/-- Gender-by-age factor of assessHeartHealth (Calculations.cpp, lines
57 to 70); false is read as female. -/
def genderAgeContribution (gender : Bool) (ageGroup : ℤ) : ℤ :=
  if gender = false then
    if ageGroup ≤ 3 then 1 else 3
  else
    if ageGroup ≤ 3 then 2 else 3

/-- Sleep-hours factor of assessHeartHealth (Calculations.cpp, lines 73
to 78). -/
def sleepContribution (sleepHours : ℤ) : ℤ :=
  if sleepHours = 1 ∨ sleepHours = 5 then 3
  else if sleepHours = 2 then 2
  else 1

/-- Exercise-frequency factor of assessHeartHealth (Calculations.cpp,
lines 81 to 86). -/
def exerciseContribution (exerciseFrequency : ℤ) : ℤ :=
  if exerciseFrequency = 1 then 3
  else if exerciseFrequency = 2 then 2
  else 1

/-- Family-disease factor of assessHeartHealth (Calculations.cpp, lines
89 to 92): four independent additive flags. -/
def familyHistoryContribution (family : FamilyHealth) : ℤ :=
  (if family.hasFamilyDisease 0 then 2 else 0) +
  (if family.hasFamilyDisease 1 then 1 else 0) +
  (if family.hasFamilyDisease 2 then 2 else 0) +
  (if family.hasFamilyDisease 3 then 2 else 0)

/-- Diet factor of assessHeartHealth (Calculations.cpp, lines 96 to
102); a diet value matching no branch adds nothing. -/
def dietContribution (dt : ℤ) : ℤ :=
  if dt = 4 then 3
  else if dt = 1 ∨ dt = 2 ∨ dt = 3 ∨ dt = 6 then 1
  else if dt = 5 then 2
  else 0

/-- Smoking factor of assessHeartHealth (Calculations.cpp, lines 105 to
108). -/
def smokingContribution (isSmoker : Bool) : ℤ :=
  if isSmoker then 3 else 1

/-- Risk score accumulated by assessHeartHealth (Calculations.cpp,
lines 46 to 108): the seven factor contributions added in program
order. -/
def riskScore (family : FamilyHealth) : ℤ :=
  ageContribution family.getAgeGroup +
  genderAgeContribution family.getGender family.getAgeGroup +
  sleepContribution family.getSleepHours +
  exerciseContribution family.getExerciseFrequency +
  familyHistoryContribution family +
  dietContribution family.getDietType +
  smokingContribution family.getIsSmoker

/-- Final message selection of assessHeartHealth (Calculations.cpp,
lines 138 to 143). -/
def riskMessageOfScore (score : ℤ) : String :=
  if 18 ≤ score then "High risk of heart disease."
  else if 10 ≤ score then "Moderate risk of heart disease."
  else "Low risk of heart disease. You are healthy!"

/-- Output record of assessHeartHealth: the five out-parameters written
by the C++ function together with its returned string. -/
structure AssessResult where
  heartRate : ℚ
  sysBP : ℚ
  diasBP : ℚ
  cholesterol : ℚ
  ecg : ℚ
  message : String
  deriving Repr, DecidableEq

/-- Mirror of assessHeartHealth (Calculations.cpp, lines 42 to 144).
The sample argument stands for one draw of a freshly constructed
RandomNumberGenerator over the given bounds, as at each C++ call site;
the branch on the score picks the simulation ranges (lines 114 to 135)
and the returned message is selected by the second branch chain (lines
138 to 143), factored here as riskMessageOfScore. -/
def assessHeartHealth (sample : ℚ → ℚ → ℚ) (family : FamilyHealth) : AssessResult :=
  if riskScore family < 10 then
    { heartRate := sample 60 80
      sysBP := sample 110 120
      diasBP := sample 70 80
      cholesterol := sample 150 200
      ecg := sample 0.05 0.15
      message := riskMessageOfScore (riskScore family) }
  else if riskScore family < 18 then
    { heartRate := sample 80 95
      sysBP := sample 120 135
      diasBP := sample 80 90
      cholesterol := sample 200 240
      ecg := sample 0.02 0.18
      message := riskMessageOfScore (riskScore family) }
  else
    { heartRate := sample 95 120
      sysBP := sample 135 160
      diasBP := sample 90 110
      cholesterol := sample 240 300
      ecg := sample (-0.1) 0.3
      message := riskMessageOfScore (riskScore family) }

/-- Mirror of the RandomNumberGenerator class state: the bounds handed
to the uniform real distribution (RandomNumberGenerator.h). The mt19937
engine state is irrelevant to the claims and omitted. -/
structure RandomNumberGenerator where
  min : ℚ
  max : ℚ
  deriving Repr, DecidableEq

/-- Mirror of the RandomNumberGenerator constructor
(RandomNumberGenerator.cpp, lines 21 to 23): it seeds the engine and
stores the bounds. The C++ body contains no validation, no throw and no
assert, so the embedding, written in Except to make any error path
observable, always returns ok. -/
def RandomNumberGenerator.construct (min max : ℚ) :
    Except String RandomNumberGenerator :=
  Except.ok { min := min, max := max }

/-- Documented-domain predicate of the specification (sections 3 and
4.2): ageGroup in 1..6, sleepHoursCategory in 1..5, exerciseFrequency
in 1..4, dietType in 1..6, and the fixed four-entry history vector. -/
def inDocumentedDomain (f : FamilyHealth) : Prop :=
  (1 ≤ f.ageGroup ∧ f.ageGroup ≤ 6) ∧
  (1 ≤ f.sleepHours ∧ f.sleepHours ≤ 5) ∧
  (1 ≤ f.exerciseFrequency ∧ f.exerciseFrequency ≤ 4) ∧
  (1 ≤ f.dietType ∧ f.dietType ≤ 6) ∧
  f.familyDiseasesHistory.length = 4

instance (f : FamilyHealth) : Decidable (inDocumentedDomain f) := by
  unfold inDocumentedDomain; infer_instance

/-- Age row of the specification scoring table (section 4.2),
transcribed from the wording of the spec for comparison against the
code: bands 1 and 2 give 1, bands 3 and 4 give 2, bands 5 and 6 give 3,
and an unmatched value contributes nothing. -/
def specAgePoints (ageGroup : ℤ) : ℤ :=
  if ageGroup = 1 ∨ ageGroup = 2 then 1
  else if ageGroup = 3 ∨ ageGroup = 4 then 2
  else if ageGroup = 5 ∨ ageGroup = 6 then 3
  else 0

/-- Sex-by-age row of the specification scoring table (section 4.2),
transcribed from the wording of the spec. -/
def specSexAgePoints (isMale : Bool) (ageGroup : ℤ) : ℤ :=
  if isMale = false ∧ ageGroup ≤ 3 then 1
  else if isMale = false ∧ 3 < ageGroup then 3
  else if isMale = true ∧ ageGroup ≤ 3 then 2
  else 3

/-- Sleep row of the specification scoring table (section 4.2),
transcribed from the wording of the spec. -/
def specSleepPoints (category : ℤ) : ℤ :=
  if category = 1 ∨ category = 5 then 3
  else if category = 2 then 2
  else if category = 3 ∨ category = 4 then 1
  else 0

/-- Exercise row of the specification scoring table (section 4.2),
transcribed from the wording of the spec. -/
def specExercisePoints (frequency : ℤ) : ℤ :=
  if frequency = 1 then 3
  else if frequency = 2 then 2
  else if frequency = 3 ∨ frequency = 4 then 1
  else 0

/-- Family-history rows of the specification scoring table (section
4.2): contributions 2, 1, 2, 2 for flags 0 to 3. -/
def specFamilyPoints (f : FamilyHealth) : ℤ :=
  (if f.hasFamilyDisease 0 then 2 else 0) +
  (if f.hasFamilyDisease 1 then 1 else 0) +
  (if f.hasFamilyDisease 2 then 2 else 0) +
  (if f.hasFamilyDisease 3 then 2 else 0)

/-- Diet row of the specification scoring table (section 4.2): western
gives 3, vegan gives 2, the four other named diets give 1, anything
outside 1..6 gives 0. -/
def specDietPoints (dietType : ℤ) : ℤ :=
  if dietType = 4 then 3
  else if dietType = 1 ∨ dietType = 2 ∨ dietType = 3 ∨ dietType = 6 then 1
  else if dietType = 5 then 2
  else 0

/-- Smoking row of the specification scoring table (section 4.2). -/
def specSmokingPoints (isSmoker : Bool) : ℤ :=
  if isSmoker then 3 else 1

/-- Total of the specification scoring table (section 4.2): the sum of
the per-factor contributions, every rule always applied. -/
def specTableScore (f : FamilyHealth) : ℤ :=
  specAgePoints f.ageGroup +
  specSexAgePoints f.gender f.ageGroup +
  specSleepPoints f.sleepHours +
  specExercisePoints f.exerciseFrequency +
  specFamilyPoints f +
  specDietPoints f.dietType +
  specSmokingPoints f.isSmoker

/-- Low-risk concrete profile of the specification (section 8, item 7):
ageGroup 1, female, sleep 3, exercise 3, no family disease, balanced
diet, non-smoker. -/
def lowProfile : FamilyHealth :=
  mkFamilyHealth 1 false 3 3 6 false

/-- High-risk concrete profile of the specification (section 8, item
8): ageGroup 6, male, sleep 1, exercise 1, all four diseases present,
western diet, smoker. -/
def highRiskProfile : FamilyHealth :=
  { mkFamilyHealth 6 true 1 1 4 true with
    familyDiseasesHistory := [true, true, true, true] }

/-- Profile whose age group 0 lies outside the documented domain 1..6
while every other field is in domain. -/
def outOfDomainAgeProfile : FamilyHealth :=
  mkFamilyHealth 0 false 3 3 6 false

/-- Profile whose four ordinal fields all lie outside their documented
domains: age group 0, sleep category 99, exercise frequency -1, diet
type 7. -/
def wildProfile : FamilyHealth :=
  mkFamilyHealth 0 false 99 (-1) 7 false

/-- Bound sampler returning the lower bound of each requested range,
used to instantiate sampler hypotheses at a concrete draw. -/
def sampleLow (lo : ℚ) (_hi : ℚ) : ℚ := lo

/-- Interval membership for the simulated readings. -/
def between (lo hi x : ℚ) : Prop := lo ≤ x ∧ x ≤ hi

instance (lo hi x : ℚ) : Decidable (between lo hi x) := by
  unfold between; infer_instance

/-- Helper: the age factor of the code agrees with the age row of the
spec table on the documented domain 1..6. -/
theorem ageContribution_spec (a : ℤ) (h1 : 1 ≤ a) (h6 : a ≤ 6) :
    ageContribution a = specAgePoints a := by
  unfold ageContribution specAgePoints
  split_ifs <;> omega

/-- Helper: the gender-by-age factor of the code agrees with the
sex-by-age row of the spec table on every input. -/
theorem genderAgeContribution_spec (g : Bool) (a : ℤ) :
    genderAgeContribution g a = specSexAgePoints g a := by
  cases g <;> simp only [genderAgeContribution, specSexAgePoints] <;>
    split_ifs <;> simp_all

/-- Helper: the sleep factor of the code agrees with the sleep row of
the spec table on the documented domain 1..5. -/
theorem sleepContribution_spec (s : ℤ) (h1 : 1 ≤ s) (h5 : s ≤ 5) :
    sleepContribution s = specSleepPoints s := by
  unfold sleepContribution specSleepPoints
  split_ifs <;> omega

/-- Helper: the exercise factor of the code agrees with the exercise
row of the spec table on the documented domain 1..4. -/
theorem exerciseContribution_spec (e : ℤ) (h1 : 1 ≤ e) (h4 : e ≤ 4) :
    exerciseContribution e = specExercisePoints e := by
  unfold exerciseContribution specExercisePoints
  split_ifs <;> omega

/-- Helper: on documented domains the accumulated risk score equals
the spec table total. -/
theorem riskScore_eq_specTable (f : FamilyHealth) (hdom : inDocumentedDomain f) :
    riskScore f = specTableScore f := by
  obtain ⟨⟨ha1, ha6⟩, ⟨hs1, hs5⟩, ⟨he1, he4⟩, ⟨hd1, hd6⟩, hlen⟩ := hdom
  unfold riskScore specTableScore FamilyHealth.getAgeGroup FamilyHealth.getGender
    FamilyHealth.getSleepHours FamilyHealth.getExerciseFrequency
    FamilyHealth.getDietType FamilyHealth.getIsSmoker
  rw [ageContribution_spec _ ha1 ha6, genderAgeContribution_spec,
    sleepContribution_spec _ hs1 hs5, exerciseContribution_spec _ he1 he4]
  rfl

/-- C1: on documented domains the risk score of assessHeartHealth is
exactly the sum of the independent per-factor contributions of the
section 4.2 scoring table; scoring is a pure function of the profile
with no sampler involvement (the Lean embedding of the score takes no
sampler argument at all), and a profile with all four family-disease
flags set scores exactly 7 more than the same profile with all flags
clear. -/
theorem heartpi_C1_score_is_table_sum (f : FamilyHealth)
    (hdom : inDocumentedDomain f) :
    riskScore f = specTableScore f ∧
    riskScore { f with familyDiseasesHistory := [true, true, true, true] } =
      riskScore { f with familyDiseasesHistory := [false, false, false, false] } + 7 := by
  refine ⟨riskScore_eq_specTable f hdom, ?_⟩
  have ht : familyHistoryContribution
      { f with familyDiseasesHistory := [true, true, true, true] } = 7 := rfl
  have hf : familyHistoryContribution
      { f with familyDiseasesHistory := [false, false, false, false] } = 0 := rfl
  show ageContribution f.ageGroup + genderAgeContribution f.gender f.ageGroup +
      sleepContribution f.sleepHours + exerciseContribution f.exerciseFrequency +
      familyHistoryContribution { f with familyDiseasesHistory := [true, true, true, true] } +
      dietContribution f.dietType + smokingContribution f.isSmoker =
    ageContribution f.ageGroup + genderAgeContribution f.gender f.ageGroup +
      sleepContribution f.sleepHours + exerciseContribution f.exerciseFrequency +
      familyHistoryContribution { f with familyDiseasesHistory := [false, false, false, false] } +
      dietContribution f.dietType + smokingContribution f.isSmoker + 7
  rw [ht, hf]
  omega

/-- Witness for C1 at the concrete low-risk profile of spec section 8
item 7. -/
theorem heartpi_C1_witness :
    inDocumentedDomain lowProfile ∧
    (riskScore lowProfile = specTableScore lowProfile ∧
     riskScore { lowProfile with familyDiseasesHistory := [true, true, true, true] } =
       riskScore { lowProfile with familyDiseasesHistory := [false, false, false, false] } + 7) :=
  ⟨by decide, heartpi_C1_score_is_table_sum lowProfile (by decide)⟩

/-- C9: on every profile, in-domain or not, each scalar factor
contributes between 1 and 3, family history between 0 and 7, diet
between 0 and 3, and hence the total risk score lies between 5 and
25. -/
theorem heartpi_C9_score_bounds (f : FamilyHealth) :
    (1 ≤ ageContribution f.getAgeGroup ∧ ageContribution f.getAgeGroup ≤ 3) ∧
    (1 ≤ genderAgeContribution f.getGender f.getAgeGroup ∧
      genderAgeContribution f.getGender f.getAgeGroup ≤ 3) ∧
    (1 ≤ sleepContribution f.getSleepHours ∧ sleepContribution f.getSleepHours ≤ 3) ∧
    (1 ≤ exerciseContribution f.getExerciseFrequency ∧
      exerciseContribution f.getExerciseFrequency ≤ 3) ∧
    (1 ≤ smokingContribution f.getIsSmoker ∧ smokingContribution f.getIsSmoker ≤ 3) ∧
    (0 ≤ familyHistoryContribution f ∧ familyHistoryContribution f ≤ 7) ∧
    (0 ≤ dietContribution f.getDietType ∧ dietContribution f.getDietType ≤ 3) ∧
    (5 ≤ riskScore f ∧ riskScore f ≤ 25) := by
  have ha : 1 ≤ ageContribution f.getAgeGroup ∧ ageContribution f.getAgeGroup ≤ 3 := by
    unfold ageContribution; split_ifs <;> omega
  have hg : 1 ≤ genderAgeContribution f.getGender f.getAgeGroup ∧
      genderAgeContribution f.getGender f.getAgeGroup ≤ 3 := by
    unfold genderAgeContribution; split_ifs <;> omega
  have hsl : 1 ≤ sleepContribution f.getSleepHours ∧
      sleepContribution f.getSleepHours ≤ 3 := by
    unfold sleepContribution; split_ifs <;> omega
  have hex : 1 ≤ exerciseContribution f.getExerciseFrequency ∧
      exerciseContribution f.getExerciseFrequency ≤ 3 := by
    unfold exerciseContribution; split_ifs <;> omega
  have hsm : 1 ≤ smokingContribution f.getIsSmoker ∧
      smokingContribution f.getIsSmoker ≤ 3 := by
    unfold smokingContribution; split_ifs <;> omega
  have hfm : 0 ≤ familyHistoryContribution f ∧ familyHistoryContribution f ≤ 7 := by
    unfold familyHistoryContribution; split_ifs <;> omega
  have hdt : 0 ≤ dietContribution f.getDietType ∧ dietContribution f.getDietType ≤ 3 := by
    unfold dietContribution; split_ifs <;> omega
  refine ⟨ha, hg, hsl, hex, hsm, hfm, hdt, ?_⟩
  unfold riskScore
  omega

/-- Helper: score below 10 selects the low-risk message. -/
theorem riskMessage_low_iff (s : ℤ) :
    riskMessageOfScore s = "Low risk of heart disease. You are healthy!" ↔ s < 10 := by
  unfold riskMessageOfScore
  split_ifs with h1 h2
  · exact ⟨fun h => absurd h (by decide), fun h => absurd h1 (by omega)⟩
  · exact ⟨fun h => absurd h (by decide), fun h => absurd h2 (by omega)⟩
  · exact ⟨fun _ => by omega, fun _ => rfl⟩

/-- Helper: score in 10..17 selects the moderate-risk message. -/
theorem riskMessage_moderate_iff (s : ℤ) :
    riskMessageOfScore s = "Moderate risk of heart disease." ↔ 10 ≤ s ∧ s < 18 := by
  unfold riskMessageOfScore
  split_ifs with h1 h2
  · exact ⟨fun h => absurd h (by decide), fun h => absurd h1 (by omega)⟩
  · exact ⟨fun _ => by omega, fun _ => rfl⟩
  · exact ⟨fun h => absurd h (by decide), fun h => absurd h2 (by omega)⟩

/-- Helper: score at least 18 selects the high-risk message. -/
theorem riskMessage_high_iff (s : ℤ) :
    riskMessageOfScore s = "High risk of heart disease." ↔ 18 ≤ s := by
  unfold riskMessageOfScore
  split_ifs with h1 h2
  · exact ⟨fun _ => h1, fun _ => rfl⟩
  · exact ⟨fun h => absurd h (by decide), fun h => absurd h h1⟩
  · exact ⟨fun h => absurd h (by decide), fun h => absurd h h1⟩

/-- Helper: the message returned by assessHeartHealth is exactly the
message the final branch chain selects from the score. -/
theorem assess_message_eq (sample : ℚ → ℚ → ℚ) (f : FamilyHealth) :
    (assessHeartHealth sample f).message = riskMessageOfScore (riskScore f) := by
  unfold assessHeartHealth
  split_ifs <;> rfl

/-- C2: assessHeartHealth classifies a score as Low exactly below 10,
Moderate exactly in 10..17, High exactly at 18 and above, and at the
boundary scores 9, 10, 17, 18 the tiers are Low, Moderate, Moderate,
High. -/
theorem heartpi_C2_tier_thresholds :
    (∀ (sample : ℚ → ℚ → ℚ) (f : FamilyHealth),
        (assessHeartHealth sample f).message = riskMessageOfScore (riskScore f)) ∧
    (∀ s : ℤ,
        (riskMessageOfScore s = "Low risk of heart disease. You are healthy!" ↔ s < 10) ∧
        (riskMessageOfScore s = "Moderate risk of heart disease." ↔ 10 ≤ s ∧ s < 18) ∧
        (riskMessageOfScore s = "High risk of heart disease." ↔ 18 ≤ s)) ∧
    riskMessageOfScore 9 = "Low risk of heart disease. You are healthy!" ∧
    riskMessageOfScore 10 = "Moderate risk of heart disease." ∧
    riskMessageOfScore 17 = "Moderate risk of heart disease." ∧
    riskMessageOfScore 18 = "High risk of heart disease." :=
  ⟨assess_message_eq,
   fun s => ⟨riskMessage_low_iff s, riskMessage_moderate_iff s, riskMessage_high_iff s⟩,
   rfl, rfl, rfl, rfl⟩

/-- C6: for every sampler and profile the message of the assessment is
the one selected from the score by the final branch chain, and it is
one of the three tier literals, character for character, with no other
possible value. -/
theorem heartpi_C6_message_is_tier_literal (sample : ℚ → ℚ → ℚ) (f : FamilyHealth) :
    (assessHeartHealth sample f).message = riskMessageOfScore (riskScore f) ∧
    ((assessHeartHealth sample f).message = "Low risk of heart disease. You are healthy!" ∨
     (assessHeartHealth sample f).message = "Moderate risk of heart disease." ∨
     (assessHeartHealth sample f).message = "High risk of heart disease.") := by
  refine ⟨assess_message_eq sample f, ?_⟩
  rw [assess_message_eq sample f]
  unfold riskMessageOfScore
  split_ifs
  · exact Or.inr (Or.inr rfl)
  · exact Or.inr (Or.inl rfl)
  · exact Or.inl rfl

/-- C3 counterexample: age group 0 is outside the documented domain
1..6, yet the age factor contributes 3 (the final else branch of the
age rules matches), not 0; the whole score on this profile is 8, where
a zero age contribution would give 5. -/
theorem heartpi_C3_counterexample :
    outOfDomainAgeProfile.getAgeGroup = 0 ∧
    ¬ (1 ≤ outOfDomainAgeProfile.getAgeGroup ∧ outOfDomainAgeProfile.getAgeGroup ≤ 6) ∧
    ageContribution outOfDomainAgeProfile.getAgeGroup = 3 ∧
    ageContribution outOfDomainAgeProfile.getAgeGroup ≠ 0 ∧
    riskScore outOfDomainAgeProfile = 8 := by
  decide

/-- C3 amended: the engine never crashes (every factor is a total
function), and only the diet factor has the unmatched-rules-give-zero
behaviour: any diet value outside 1..6 contributes 0, while an
out-of-domain age group falls into the final else branch and
contributes 3, and out-of-domain sleep and exercise values fall into
their final else branches and contribute 1 each. -/
theorem heartpi_C3_amended (f : FamilyHealth) :
    (¬ (1 ≤ f.getDietType ∧ f.getDietType ≤ 6) → dietContribution f.getDietType = 0) ∧
    (¬ (1 ≤ f.getAgeGroup ∧ f.getAgeGroup ≤ 6) → ageContribution f.getAgeGroup = 3) ∧
    (¬ (1 ≤ f.getSleepHours ∧ f.getSleepHours ≤ 5) →
      sleepContribution f.getSleepHours = 1) ∧
    (¬ (1 ≤ f.getExerciseFrequency ∧ f.getExerciseFrequency ≤ 4) →
      exerciseContribution f.getExerciseFrequency = 1) := by
  refine ⟨fun h => ?_, fun h => ?_, fun h => ?_, fun h => ?_⟩ <;>
    first
    | (unfold dietContribution; split_ifs <;> omega)
    | (unfold ageContribution; split_ifs <;> omega)
    | (unfold sleepContribution; split_ifs <;> omega)
    | (unfold exerciseContribution; split_ifs <;> omega)

/-- Witness for the amended C3 at a profile with all four ordinal
fields out of domain. -/
theorem heartpi_C3_amended_witness :
    (¬ (1 ≤ wildProfile.getDietType ∧ wildProfile.getDietType ≤ 6) ∧
      dietContribution wildProfile.getDietType = 0) ∧
    (¬ (1 ≤ wildProfile.getAgeGroup ∧ wildProfile.getAgeGroup ≤ 6) ∧
      ageContribution wildProfile.getAgeGroup = 3) ∧
    (¬ (1 ≤ wildProfile.getSleepHours ∧ wildProfile.getSleepHours ≤ 5) ∧
      sleepContribution wildProfile.getSleepHours = 1) ∧
    (¬ (1 ≤ wildProfile.getExerciseFrequency ∧ wildProfile.getExerciseFrequency ≤ 4) ∧
      exerciseContribution wildProfile.getExerciseFrequency = 1) :=
  ⟨⟨by decide, (heartpi_C3_amended wildProfile).1 (by decide)⟩,
   ⟨by decide, (heartpi_C3_amended wildProfile).2.1 (by decide)⟩,
   ⟨by decide, (heartpi_C3_amended wildProfile).2.2.1 (by decide)⟩,
   ⟨by decide, (heartpi_C3_amended wildProfile).2.2.2 (by decide)⟩⟩

/-- C4 counterexample: the high-risk scenario profile of spec section 8
item 8 does not score 27; the seven contributions are 3, 3, 3, 3, 7, 3,
3, which sum to 25. -/
theorem heartpi_C4_counterexample : riskScore highRiskProfile ≠ 27 := by
  decide

/-- C4 amended: the high-risk scenario profile scores 25 (the sum the
spec itself writes out, 3+3+3+3+(2+1+2+2)+3+3), which is classified
High risk, and under any sampler meeting its bounds contract the
simulated ecg lies in the closed interval -0.1 to 0.3. -/
theorem heartpi_C4_high_scenario (sample : ℚ → ℚ → ℚ)
    (hs : ∀ lo hi : ℚ, lo ≤ hi → lo ≤ sample lo hi ∧ sample lo hi ≤ hi) :
    riskScore highRiskProfile = 25 ∧
    (assessHeartHealth sample highRiskProfile).message = "High risk of heart disease." ∧
    between (-0.1) 0.3 (assessHeartHealth sample highRiskProfile).ecg := by
  have h10 : ¬ riskScore highRiskProfile < 10 := by decide
  have h18 : ¬ riskScore highRiskProfile < 18 := by decide
  have hA : assessHeartHealth sample highRiskProfile =
      { heartRate := sample 95 120
        sysBP := sample 135 160
        diasBP := sample 90 110
        cholesterol := sample 240 300
        ecg := sample (-0.1) 0.3
        message := riskMessageOfScore (riskScore highRiskProfile) } := by
    unfold assessHeartHealth
    rw [if_neg h10, if_neg h18]
  refine ⟨by decide, ?_, ?_⟩
  · rw [hA]
    show riskMessageOfScore (riskScore highRiskProfile) = _
    decide
  · rw [hA]
    exact hs (-0.1) 0.3 (by norm_num)

/-- Witness for the amended C4 with the lower-bound sampler. -/
theorem heartpi_C4_witness :
    riskScore highRiskProfile = 25 ∧
    (assessHeartHealth sampleLow highRiskProfile).message = "High risk of heart disease." ∧
    between (-0.1) 0.3 (assessHeartHealth sampleLow highRiskProfile).ecg :=
  heartpi_C4_high_scenario sampleLow (fun lo _hi h => ⟨le_refl lo, h⟩)

/-- C5: whenever every sampler draw over ordered bounds lands inside
those bounds, each of the five simulated readings of assessHeartHealth
lies in the closed interval its tier documents: Low under score 10,
Moderate from 10 up to 18, High from 18. -/
theorem heartpi_C5_range_containment (sample : ℚ → ℚ → ℚ)
    (hs : ∀ lo hi : ℚ, lo ≤ hi → lo ≤ sample lo hi ∧ sample lo hi ≤ hi)
    (f : FamilyHealth) :
    (riskScore f < 10 →
      between 60 80 (assessHeartHealth sample f).heartRate ∧
      between 110 120 (assessHeartHealth sample f).sysBP ∧
      between 70 80 (assessHeartHealth sample f).diasBP ∧
      between 150 200 (assessHeartHealth sample f).cholesterol ∧
      between 0.05 0.15 (assessHeartHealth sample f).ecg) ∧
    (10 ≤ riskScore f → riskScore f < 18 →
      between 80 95 (assessHeartHealth sample f).heartRate ∧
      between 120 135 (assessHeartHealth sample f).sysBP ∧
      between 80 90 (assessHeartHealth sample f).diasBP ∧
      between 200 240 (assessHeartHealth sample f).cholesterol ∧
      between 0.02 0.18 (assessHeartHealth sample f).ecg) ∧
    (18 ≤ riskScore f →
      between 95 120 (assessHeartHealth sample f).heartRate ∧
      between 135 160 (assessHeartHealth sample f).sysBP ∧
      between 90 110 (assessHeartHealth sample f).diasBP ∧
      between 240 300 (assessHeartHealth sample f).cholesterol ∧
      between (-0.1) 0.3 (assessHeartHealth sample f).ecg) := by
  refine ⟨fun h => ?_, fun h1 h2 => ?_, fun h => ?_⟩
  · have hA : assessHeartHealth sample f =
        { heartRate := sample 60 80
          sysBP := sample 110 120
          diasBP := sample 70 80
          cholesterol := sample 150 200
          ecg := sample 0.05 0.15
          message := riskMessageOfScore (riskScore f) } := by
      unfold assessHeartHealth
      rw [if_pos h]
    rw [hA]
    exact ⟨hs 60 80 (by norm_num), hs 110 120 (by norm_num), hs 70 80 (by norm_num),
      hs 150 200 (by norm_num), hs 0.05 0.15 (by norm_num)⟩
  · have hA : assessHeartHealth sample f =
        { heartRate := sample 80 95
          sysBP := sample 120 135
          diasBP := sample 80 90
          cholesterol := sample 200 240
          ecg := sample 0.02 0.18
          message := riskMessageOfScore (riskScore f) } := by
      unfold assessHeartHealth
      rw [if_neg (by omega), if_pos h2]
    rw [hA]
    exact ⟨hs 80 95 (by norm_num), hs 120 135 (by norm_num), hs 80 90 (by norm_num),
      hs 200 240 (by norm_num), hs 0.02 0.18 (by norm_num)⟩
  · have hA : assessHeartHealth sample f =
        { heartRate := sample 95 120
          sysBP := sample 135 160
          diasBP := sample 90 110
          cholesterol := sample 240 300
          ecg := sample (-0.1) 0.3
          message := riskMessageOfScore (riskScore f) } := by
      unfold assessHeartHealth
      rw [if_neg (by omega), if_neg (by omega)]
    rw [hA]
    exact ⟨hs 95 120 (by norm_num), hs 135 160 (by norm_num), hs 90 110 (by norm_num),
      hs 240 300 (by norm_num), hs (-0.1) 0.3 (by norm_num)⟩

/-- Witness for C5 with the lower-bound sampler at the concrete
low-risk profile, whose score is 6. -/
theorem heartpi_C5_witness :
    riskScore lowProfile < 10 ∧
    (between 60 80 (assessHeartHealth sampleLow lowProfile).heartRate ∧
     between 110 120 (assessHeartHealth sampleLow lowProfile).sysBP ∧
     between 70 80 (assessHeartHealth sampleLow lowProfile).diasBP ∧
     between 150 200 (assessHeartHealth sampleLow lowProfile).cholesterol ∧
     between 0.05 0.15 (assessHeartHealth sampleLow lowProfile).ecg) :=
  ⟨by decide,
   (heartpi_C5_range_containment sampleLow (fun lo _hi h => ⟨le_refl lo, h⟩)
     lowProfile).1 (by decide)⟩

/-- C7: reading the family-disease history with any index outside 0..3
returns false on every profile carrying the four-entry history vector
the class constructor establishes; the function is total, so no
exception is possible. -/
theorem heartpi_C7_out_of_range_read (f : FamilyHealth) (i : ℤ)
    (hlen : f.getFamilyHistoryCount = 4) (hout : i < 0 ∨ 4 ≤ i) :
    f.hasFamilyDisease i = false := by
  unfold FamilyHealth.hasFamilyDisease
  rw [if_pos]
  rcases hout with h | h
  · exact Or.inl h
  · exact Or.inr (by rw [hlen]; exact h)

/-- Witness for C7: index 5 on the concrete low-risk profile. -/
theorem heartpi_C7_witness :
    lowProfile.getFamilyHistoryCount = 4 ∧ lowProfile.hasFamilyDisease 5 = false :=
  ⟨by decide, heartpi_C7_out_of_range_read lowProfile 5 (by decide) (Or.inr (by decide))⟩

/-- C8: the RandomNumberGenerator constructor invoked with min 1 and
max 0, a pair with min strictly above max, does not fail fast: the
embedded constructor, which is the C++ body verbatim (no check, no
throw), returns the configured generator as a success value. -/
theorem heartpi_C8_no_fail_fast :
    (0 : ℚ) < 1 ∧
    RandomNumberGenerator.construct 1 0 =
      Except.ok { min := 1, max := 0 } :=
  ⟨by norm_num, rfl⟩

/-- Helper: a list of length four is a four-element literal. -/
theorem list_bool_length_four (l : List Bool) (h : l.length = 4) :
    ∃ a b c d : Bool, l = [a, b, c, d] := by
  rcases l with _ | ⟨a, l⟩
  · simp at h
  rcases l with _ | ⟨b, l⟩
  · simp at h
  rcases l with _ | ⟨c, l⟩
  · simp at h
  rcases l with _ | ⟨d, l⟩
  · simp at h
  rcases l with _ | ⟨e, l⟩
  · exact ⟨a, b, c, d, rfl⟩
  · simp at h

/-- C10: on a profile carrying the four-entry history vector, a setter
call with an index outside 0..3 returns the object unchanged, and an
in-range call changes only the addressed history entry, leaving every
other field and every other history entry as it was. -/
theorem heartpi_C10_set_frame (f : FamilyHealth) (i : ℤ) (v : Bool)
    (hlen : f.familyDiseasesHistory.length = 4) :
    ((i < 0 ∨ 4 ≤ i) → f.setFamilyDiseaseHistory i v = f) ∧
    (0 ≤ i → i < 4 →
      ((f.setFamilyDiseaseHistory i v).ageGroup = f.ageGroup ∧
       (f.setFamilyDiseaseHistory i v).gender = f.gender ∧
       (f.setFamilyDiseaseHistory i v).sleepHours = f.sleepHours ∧
       (f.setFamilyDiseaseHistory i v).exerciseFrequency = f.exerciseFrequency ∧
       (f.setFamilyDiseaseHistory i v).dietType = f.dietType ∧
       (f.setFamilyDiseaseHistory i v).isSmoker = f.isSmoker ∧
       (f.setFamilyDiseaseHistory i v).familyDiseases = f.familyDiseases) ∧
      (f.setFamilyDiseaseHistory i v).familyDiseasesHistory.length = 4 ∧
      (f.setFamilyDiseaseHistory i v).familyDiseasesHistory.getD i.toNat false = v ∧
      (∀ j : ℕ, j < 4 → j ≠ i.toNat →
        (f.setFamilyDiseaseHistory i v).familyDiseasesHistory.getD j false =
          f.familyDiseasesHistory.getD j false)) := by
  constructor
  · intro hout
    unfold FamilyHealth.setFamilyDiseaseHistory
    rw [if_neg (by omega)]
  · intro h0 h4
    obtain ⟨a, b, c, d, hl⟩ := list_bool_length_four _ hlen
    unfold FamilyHealth.setFamilyDiseaseHistory
    rw [if_pos (by omega)]
    have hiv : i = 0 ∨ i = 1 ∨ i = 2 ∨ i = 3 := by omega
    rcases hiv with rfl | rfl | rfl | rfl <;>
      rw [hl] <;>
      refine ⟨⟨rfl, rfl, rfl, rfl, rfl, rfl, rfl⟩, rfl, rfl, ?_⟩ <;>
      intro j hj hne <;>
      interval_cases j <;>
      first | rfl | omega

/-- Witness for C10: on the concrete low-risk profile, index 5 is a
no-op and index 1 updates exactly the addressed entry. -/
theorem heartpi_C10_witness :
    lowProfile.setFamilyDiseaseHistory 5 true = lowProfile ∧
    (lowProfile.setFamilyDiseaseHistory 1 true).familyDiseasesHistory.getD 1 false = true ∧
    (lowProfile.setFamilyDiseaseHistory 1 true).familyDiseasesHistory.getD 0 false =
      lowProfile.familyDiseasesHistory.getD 0 false ∧
    (lowProfile.setFamilyDiseaseHistory 1 true).ageGroup = lowProfile.ageGroup :=
  ⟨(heartpi_C10_set_frame lowProfile 5 true (by decide)).1 (Or.inr (by decide)),
   ((heartpi_C10_set_frame lowProfile 1 true (by decide)).2 (by decide) (by decide)).2.2.1,
   ((heartpi_C10_set_frame lowProfile 1 true (by decide)).2 (by decide) (by decide)).2.2.2
     0 (by decide) (by decide),
   ((heartpi_C10_set_frame lowProfile 1 true (by decide)).2 (by decide) (by decide)).1.1⟩
